import Mathlib

/-
Verification of the mm3ds renderer core (src/source/renderer.c,
src/source/panic.c, src/source/inc/panic.h) against its specification.

The C code is shallowly embedded: the renderer struct, its mesh registry
and request queue become a Lean record; the citro3d backend collaborators
(uniform upload, texture bind, draw submission) are modelled as an event
trace; the fatal-error facility (panic.h / panic.c, which displays a
message and aborts) becomes the error branch of an `Except`, carrying the
message and the state of the renderer at the moment of the abort.

Heap allocation is modelled explicitly because the source manages the
registry and the queue by hand: each `malloc`/`linearAlloc` returns a
fresh allocation id from a counter, and the byte size of the block backing
the registry (`meshes_bytes`) and the queue (`requests_bytes`) is tracked,
since the source's `realloc` calls pass ELEMENT counts where BYTE counts
are required. `realloc` is modelled as resizing the block in place
(keeping its id); data at offsets beyond the new byte size is destroyed.

`sizeof(struct mesh)` and `sizeof(struct render_request)` are
platform-dependent, so they are parameters (`szMesh`, `szReq`) of the
model; on the 32-bit 3DS target `struct mesh` holds at least a 64-byte
material and `struct render_request` a 4-byte id plus a 64-byte matrix,
so both are at least 16 bytes, which is all the theorems below need.
-/

set_option maxHeartbeats 1000000
set_option maxRecDepth 8000

namespace MM3DS

/-- One `C3D_FVec`: a 4-component float vector. Components are modelled as
rationals, since the renderer only passes them through to the backend and
never computes with them (the constants used — 0, ±1, 0.2 — are exact in
binary floating point). -/
structure FVec where
  x : ℚ
  y : ℚ
  z : ℚ
  w : ℚ
deriving DecidableEq

instance : Inhabited FVec :=
  ⟨⟨0, 0, 0, 0⟩⟩

/-- A `C3D_Mtx`: four rows of four components. The renderer treats
matrices as opaque data and forwards them to the backend unchanged. -/
abbrev Mtx := List FVec

/-- The `struct vertex` of `inc/renderer.h`: position (3 floats), texture
coordinate (2 floats), normal (3 floats). Plain value type. -/
structure vertex where
  position : ℚ × ℚ × ℚ
  texcoord : ℚ × ℚ
  normal : ℚ × ℚ × ℚ
deriving DecidableEq

instance : Inhabited vertex :=
  ⟨⟨(0, 0, 0), (0, 0), (0, 0, 0)⟩⟩

/-- The `struct material` of `inc/renderer.h`: four 4-component
light-response vectors. -/
structure material where
  ambient : FVec
  diffuse : FVec
  specular : FVec
  emission : FVec
deriving DecidableEq

instance : Inhabited material :=
  ⟨⟨default, default, default, default⟩⟩

/-- The `default_material` constant of `inc/renderer.h`. Each C3D_FVec is
initialized with `{ {0.f, 0.2f, 0.2f, 0.2f} }`, which fills the union's
leading struct fields `w, z, y, x` in that order: w = 0, z = y = x = 1/5. -/
def default_material : material :=
  { ambient := ⟨1/5, 1/5, 1/5, 0⟩
    diffuse := ⟨1/5, 1/5, 1/5, 0⟩
    specular := ⟨1/5, 1/5, 1/5, 0⟩
    emission := ⟨1/5, 1/5, 1/5, 0⟩ }

/-- The `struct mesh` of `inc/renderer.h`. The vertex buffer is a copy of
the caller's vertices placed in a linearAlloc'd block identified by
`vbo_id`; the texture is the opaque handle produced by the external
Tex3DS importer (`none` while not yet imported). The `buf_info` field of
the C struct is a reference to the single global C3D buffer descriptor
and is modelled by the renderer-level `ctx_buf_info` field instead. -/
structure mesh where
  material : material
  vbo_data : List vertex
  vbo_id : Nat
  texture : Option Nat
  vertex_count : Nat
deriving DecidableEq

instance : Inhabited mesh :=
  ⟨⟨default, [], 0, none, 0⟩⟩

/-- The `struct render_request` of `inc/renderer.h`: mesh handle plus a
copy of the caller's model matrix. -/
structure render_request where
  mesh_id : Nat
  model : Mtx
deriving DecidableEq

instance : Inhabited render_request :=
  ⟨⟨0, []⟩⟩

/-- The `struct renderer` of `inc/renderer.h`, together with the pieces of
global citro3d context state the code uses (`ctx_buf_info`, the buffer
descriptor returned by `C3D_GetBufInfo`) and the heap-allocation
accounting described at the top of the file. `meshes`/`requests` record
the sequence of values logically stored at each slot of the backing
arrays; `meshes_bytes`/`requests_bytes` record the byte size of the
current backing allocations; the `_ptr` fields are allocation ids,
`none` standing for NULL. -/
structure renderer where
  projection : Mtx
  uLoc_projection : Nat
  uLoc_modelView : Nat
  uLoc_lightVec : Nat
  uLoc_lightHalfVec : Nat
  uLoc_lightClr : Nat
  uLoc_material : Nat
  requests_ptr : Option Nat
  requests : List render_request
  n_requests : Nat
  capacity_requests : Nat
  requests_bytes : Nat
  meshes_ptr : Option Nat
  meshes : List mesh
  n_meshes : Nat
  capacity_meshes : Nat
  meshes_bytes : Nat
  ctx_buf_info : Option Nat
  next_alloc_id : Nat
deriving DecidableEq

/-- One call the renderer makes into the backend draw collaborator:
a 4x4-matrix uniform upload (`C3D_FVUnifMtx4x4`), a 4-vector uniform
upload (`C3D_FVUnifSet`, components in x, y, z, w argument order), a
texture bind to a unit (`C3D_TexBind`), a vertex-buffer-descriptor bind
(`C3D_SetBufInfo` — present in the event alphabet although the source
never emits it), and a non-indexed draw (`C3D_DrawArrays`), which records
the globally bound vertex buffer it sources from. -/
inductive PrimMode where
  | triangles
deriving DecidableEq

inductive BackendEvent where
  | uniformMtx (loc : Nat) (m : Mtx)
  | uniformVec (loc : Nat) (v : FVec)
  | texBind (unit : Nat) (tex : Option Nat)
  | setBufInfo (vbo : Nat)
  | drawArrays (srcBuf : Option Nat) (mode : PrimMode) (first count : Nat)
deriving DecidableEq

/-- Write to slot `i` of a C array modelled as the list of values stored
so far: slots written before are overwritten in place, a write past the
end pads the untouched (uninitialized) slots with `default`. -/
def writeSlot {α : Type} [Inhabited α] (l : List α) (i : Nat) (a : α) : List α :=
  if i < l.length then l.set i a
  else l ++ List.replicate (i - l.length) default ++ [a]

/-- Models `renderer_init` (renderer.c:13). The projection matrix comes
from `Mtx_PerspTilt` (80 degree FOV, top-screen aspect, 0.01–1000) and
the six uniform locations from the shader — both external collaborators —
so they are parameters here. The C code allocates the struct with plain
`malloc` and never clears the registry and queue fields (a `calloc` call
is commented out); the model takes the zero-initialized state the rest of
the code assumes (`meshes == NULL`, `requests == NULL`, counts 0). -/
def renderer_init (projection : Mtx)
    (uLoc_projection uLoc_modelView uLoc_lightVec uLoc_lightHalfVec
     uLoc_lightClr uLoc_material : Nat) : renderer :=
  { projection := projection
    uLoc_projection := uLoc_projection
    uLoc_modelView := uLoc_modelView
    uLoc_lightVec := uLoc_lightVec
    uLoc_lightHalfVec := uLoc_lightHalfVec
    uLoc_lightClr := uLoc_lightClr
    uLoc_material := uLoc_material
    requests_ptr := none
    requests := []
    n_requests := 0
    capacity_requests := 0
    requests_bytes := 0
    meshes_ptr := none
    meshes := []
    n_meshes := 0
    capacity_meshes := 0
    meshes_bytes := 0
    ctx_buf_info := none
    next_alloc_id := 0 }

/-- Models `new_mesh` (renderer.c:56). Faithful to the source: the first
allocation is `malloc(10 * sizeof(struct mesh))`, i.e. `10 * szMesh`
bytes; the growth branch computes `newcap = capacity * 3 / 2` and calls
`realloc(this->meshes, newcap)` — `newcap` is an ELEMENT count but is
passed as the BYTE size (the source never multiplies by
`sizeof(struct mesh)`), so the block is resized to `newcap` bytes.
Increments `n_meshes` and returns the old count as the new handle. -/
def new_mesh (szMesh : Nat) (s : renderer) : renderer × Nat :=
  let s1 :=
    if s.meshes_ptr = none then
      { s with
        meshes_ptr := some s.next_alloc_id
        next_alloc_id := s.next_alloc_id + 1
        meshes_bytes := 10 * szMesh
        capacity_meshes := 10 }
    else if s.n_meshes = s.capacity_meshes then
      let newcap := s.capacity_meshes * 3 / 2
      { s with meshes_bytes := newcap, capacity_meshes := newcap }
    else s
  ({ s1 with n_meshes := s1.n_meshes + 1 }, s1.n_meshes)

/-- Models `renderer_register_mesh` (renderer.c:79). The vertex array and
the texture byte buffer are modelled as lists (`n_vertices` and
`texture_size` are their lengths); `Tex3DS_TextureImport` is the external
texture-decoding collaborator, passed as the `importTex` parameter and
yielding an opaque texture handle on success. Panic messages are the
macro-generated condition texts of panic.h, without the file:line prefix.
Order of effects, as in the source: zero checks; `new_mesh`; write
material, vertex buffer copy (`linearAlloc` + `memcpy`) and vertex count
into the slot; import the texture (panic if it fails); set the texture
filter; reinitialize the global buffer descriptor to the new vertex
buffer. -/
def renderer_register_mesh (szMesh : Nat)
    (importTex : List Nat → Option Nat) (s : renderer)
    (vertices : List vertex) (texture_data : List Nat)
    (material : material) :
    Except (String × renderer) (renderer × Nat) :=
  if vertices.length = 0 then
    .error ("n_vertices was zero!", s)
  else if texture_data.length = 0 then
    .error ("texture_size was zero!", s)
  else
    let p := new_mesh szMesh s
    let s1 := p.1
    let ret := p.2
    let vboId := s1.next_alloc_id
    let s2 := { s1 with next_alloc_id := s1.next_alloc_id + 1 }
    let mesh0 : mesh :=
      { material := material
        vbo_data := vertices
        vbo_id := vboId
        texture := none
        vertex_count := vertices.length }
    let s3 := { s2 with meshes := writeSlot s2.meshes ret mesh0 }
    match importTex texture_data with
    | none => .error ("importing t3x texture failed!", s3)
    | some t =>
      .ok ({ s3 with
              meshes := writeSlot s3.meshes ret { mesh0 with texture := some t }
              ctx_buf_info := some vboId }, ret)

/-- Models `renderer_request` (renderer.c:131). Faithful to the source:
the first allocation is `malloc(10 * sizeof(struct mesh))` — note
`struct mesh`, not `struct render_request` — i.e. `10 * szMesh` bytes;
the growth branch executes `this->meshes = realloc(this->requests, newcap)`
with `newcap = capacity * 3 / 2`: the REQUESTS block is resized to
`newcap` BYTES and the resulting pointer is stored in the MESHES field
(realloc modelled as resizing in place, keeping the block id, so the
stale `requests` pointer still names the shrunken block). The request is
then written through the `requests` field and `n_requests` incremented.
No validation of `mesh_id` is performed. -/
def renderer_request (szMesh : Nat) (s : renderer)
    (mesh_id : Nat) (model : Mtx) : renderer :=
  let s1 :=
    if s.requests_ptr = none then
      { s with
        requests_ptr := some s.next_alloc_id
        next_alloc_id := s.next_alloc_id + 1
        requests_bytes := 10 * szMesh
        capacity_requests := 10 }
    else if s.n_requests = s.capacity_requests then
      let newcap := s.capacity_requests * 3 / 2
      { s with
        meshes_ptr := s.requests_ptr
        meshes_bytes := newcap
        requests_bytes := newcap
        capacity_requests := newcap }
    else s
  { s1 with
    requests := writeSlot s1.requests s1.n_requests ⟨mesh_id, model⟩
    n_requests := s1.n_requests + 1 }

/-- The material, reinterpreted as a 4x4 matrix for the uniform upload
(`(C3D_Mtx*)&mesh->material` at renderer.c:174): its four vectors become
the four rows. -/
def materialAsMtx (m : material) : Mtx :=
  [m.ambient, m.diffuse, m.specular, m.emission]

/-- The backend calls one iteration of the loop of `renderer_render`
(renderer.c:161-183) makes for one queued request, in source order:
projection, model-view (the request's model matrix, used directly),
material, the three fixed lighting vectors, texture bind to unit 0, and
one non-indexed `GPU_TRIANGLES` draw over `[0, vertex_count)`. The
`C3D_SetBufInfo` call is commented out in the source, so no `setBufInfo`
event is emitted; the draw records the globally bound vertex buffer
`ctx_buf_info` it sources from. The mesh is looked up by the request's
handle; an out-of-range handle is an out-of-bounds read, modelled by
`getD`'s default. -/
def drawEvents (s : renderer) (r : render_request) : List BackendEvent :=
  [ .uniformMtx s.uLoc_projection s.projection,
    .uniformMtx s.uLoc_modelView r.model,
    .uniformMtx s.uLoc_material (materialAsMtx (s.meshes.getD r.mesh_id default).material),
    .uniformVec s.uLoc_lightVec ⟨0, 0, -1, 0⟩,
    .uniformVec s.uLoc_lightHalfVec ⟨0, 0, -1, 0⟩,
    .uniformVec s.uLoc_lightClr ⟨1, 1, 1, 1⟩,
    .texBind 0 (s.meshes.getD r.mesh_id default).texture,
    .drawArrays s.ctx_buf_info .triangles 0 (s.meshes.getD r.mesh_id default).vertex_count ]

/-- Models `renderer_render` (renderer.c:156): iterates the first
`n_requests` queued requests in insertion order, emitting the backend
calls of `drawEvents` for each, then sets `n_requests` to 0 (the queue's
storage and capacity are retained). -/
def renderer_render (s : renderer) : renderer × List BackendEvent :=
  ({ s with n_requests := 0 },
   ((s.requests.take s.n_requests).map (drawEvents s)).flatten)

/-- Runs a sequence of registrations, threading the state and collecting
the returned handles; stops at the first panic. -/
def registerMany (szMesh : Nat) (importTex : List Nat → Option Nat)
    (s : renderer) :
    List (List vertex × List Nat × material) →
      Except (String × renderer) (renderer × List Nat)
  | [] => .ok (s, [])
  | (v, t, m) :: rest =>
    match renderer_register_mesh szMesh importTex s v t m with
    | .error e => .error e
    | .ok (s1, h) =>
      match registerMany szMesh importTex s1 rest with
      | .error e => .error e
      | .ok (s2, hs) => .ok (s2, h :: hs)

/-- Runs a sequence of enqueue calls, threading the state. -/
def requestMany (szMesh : Nat) (s : renderer) :
    List (Nat × Mtx) → renderer
  | [] => s
  | (i, m) :: rest => requestMany szMesh (renderer_request szMesh s i m) rest

/-- Mesh slot `i` lies entirely inside the registry's current heap
allocation: reading back the mesh stored at handle `i` is an in-bounds
access. After the source's growth realloc this fails even for slot 0. -/
def meshSlotFits (szMesh : Nat) (s : renderer) (i : Nat) : Prop :=
  (i + 1) * szMesh ≤ s.meshes_bytes

/-- Request slot `i` lies entirely inside the queue's current heap
allocation. -/
def requestSlotFits (szReq : Nat) (s : renderer) (i : Nat) : Prop :=
  (i + 1) * szReq ≤ s.requests_bytes

/-! Concrete fixtures used by the witness theorems and the concrete
bug-exhibiting runs: a stand-in projection matrix (produced by the
external `Mtx_PerspTilt`), an identity model matrix, one triangle's worth
of vertices, a one-byte texture container, and an importer that always
succeeds with texture handle 100. -/

def sampleProjection : Mtx :=
  [⟨2, 0, 0, 0⟩, ⟨0, 2, 0, 0⟩, ⟨0, 0, 2, 0⟩, ⟨0, 0, 0, 2⟩]

def sampleModel : Mtx :=
  [⟨1, 0, 0, 0⟩, ⟨0, 1, 0, 0⟩, ⟨0, 0, 1, 0⟩, ⟨0, 0, 0, 1⟩]

def sampleVertex : vertex :=
  ⟨(0, 0, 0), (0, 0), (0, 0, 1)⟩

def sampleImport : List Nat → Option Nat :=
  fun _ => some 100

/-- A freshly initialized renderer with uniform locations 0..5. -/
def initS : renderer :=
  renderer_init sampleProjection 0 1 2 3 4 5

/-- A texture importer that always fails (a malformed t3x container). -/
def failImport : List Nat → Option Nat :=
  fun _ => none

/-- Recognizes the events the draw-order claims track: texture binds and
draw calls. -/
def isDrawOrTex : BackendEvent → Bool
  | .texBind _ _ => true
  | .drawArrays _ _ _ _ => true
  | _ => false

/-- One registration's arguments: a 3-vertex triangle, a 1-byte texture
container, the default material. -/
def sampleRegInput : List vertex × List Nat × material :=
  ([sampleVertex, sampleVertex, sampleVertex], [0], default_material)

/-- The mesh produced by the k-th (0-indexed) sample registration: vertex
buffer allocation id k+1 (allocation 0 is the registry block), texture
handle 100 from `sampleImport`. -/
def regMesh (k : Nat) : mesh :=
  { material := default_material
    vbo_data := [sampleVertex, sampleVertex, sampleVertex]
    vbo_id := k + 1
    texture := some 100
    vertex_count := 3 }

/-- The renderer after k sample registrations from `initS`, for
1 ≤ k ≤ 10 (no growth yet): the registry block is allocation 0 holding
`10 * szMesh` bytes; vertex buffers got allocation ids 1..k. -/
def stateN (szMesh k : Nat) : renderer :=
  { initS with
    meshes_ptr := some 0
    meshes := (List.range k).map regMesh
    n_meshes := k
    capacity_meshes := 10
    meshes_bytes := 10 * szMesh
    ctx_buf_info := some k
    next_alloc_id := k + 1 }

/-- The renderer after 11 sample registrations from `initS`: the 11th
triggered growth, which set the capacity to 15 elements but realloc'd the
backing block to 15 BYTES. Independent of `szMesh`. -/
def state11 : renderer :=
  { initS with
    meshes_ptr := some 0
    meshes := (List.range 11).map regMesh
    n_meshes := 11
    capacity_meshes := 15
    meshes_bytes := 15
    ctx_buf_info := some 11
    next_alloc_id := 12 }

/-- The renderer after `stateN szMesh 1` followed by k enqueue calls, for
1 ≤ k ≤ 10 (no growth yet): the queue block is allocation 2, malloc'd
with `10 * sizeof(struct mesh)` bytes; the registry is untouched. The
enqueued handle 999 is out of range (the registry holds one mesh) and is
accepted unchecked. -/
def stateReqN (szMesh k : Nat) : renderer :=
  { stateN szMesh 1 with
    requests_ptr := some 2
    requests := List.replicate k ⟨999, sampleModel⟩
    n_requests := k
    capacity_requests := 10
    requests_bytes := 10 * szMesh
    next_alloc_id := 3 }

/-- The renderer after `stateN szMesh 1` followed by 11 enqueue calls:
the 11th triggered the queue-growth branch, which resized the queue block
(allocation 2) to 15 BYTES and stored the resulting pointer in the MESHES
field, so the registry's backing pointer now names the queue block. -/
def stateReq11 (szMesh : Nat) : renderer :=
  { stateN szMesh 1 with
    requests_ptr := some 2
    requests := List.replicate 11 ⟨999, sampleModel⟩
    n_requests := 11
    capacity_requests := 15
    requests_bytes := 15
    meshes_ptr := some 2
    meshes_bytes := 15
    next_alloc_id := 3 }

/-- A renderer with one registered mesh and one queued request for it
(handle 0, identity model matrix), built with `szMesh = 248`: the state
`renderer_request 248 (stateN 248 1) 0 sampleModel` evaluates to. -/
def stateW : renderer :=
  renderer_request 248 (stateN 248 1) 0 sampleModel

/-- The renderer after registering a second mesh (a single vertex) from
`stateW`; its vertex buffer is allocation 3. -/
def stateW2 : renderer :=
  match renderer_register_mesh 248 sampleImport stateW
      [sampleVertex] [0] default_material with
  | .ok (s, _) => s
  | .error (_, s) => s

/-- Unfolding lemma: a successful registration step followed by a
successful rest of the run. -/
lemma registerMany_cons_ok {szMesh : Nat} {importTex : List Nat → Option Nat}
    {s s1 s2 : renderer} {v : List vertex} {t : List Nat} {m : material}
    {h : Nat} {hs : List Nat} {rest : List (List vertex × List Nat × material)}
    (hstep : renderer_register_mesh szMesh importTex s v t m = .ok (s1, h))
    (hrest : registerMany szMesh importTex s1 rest = .ok (s2, hs)) :
    registerMany szMesh importTex s ((v, t, m) :: rest) = .ok (s2, h :: hs) := by
  simp [registerMany, hstep, hrest]

lemma registerMany_nil {szMesh : Nat} {importTex : List Nat → Option Nat}
    {s : renderer} : registerMany szMesh importTex s [] = .ok (s, []) := rfl

/-- Single sample-registration steps, each between literal states. -/
lemma regStep0 (szMesh : Nat) :
    renderer_register_mesh szMesh sampleImport initS
      [sampleVertex, sampleVertex, sampleVertex] [0] default_material =
      .ok (stateN szMesh 1, 0) := rfl

lemma regStep1 (szMesh : Nat) :
    renderer_register_mesh szMesh sampleImport (stateN szMesh 1)
      [sampleVertex, sampleVertex, sampleVertex] [0] default_material =
      .ok (stateN szMesh 2, 1) := rfl

lemma regStep2 (szMesh : Nat) :
    renderer_register_mesh szMesh sampleImport (stateN szMesh 2)
      [sampleVertex, sampleVertex, sampleVertex] [0] default_material =
      .ok (stateN szMesh 3, 2) := rfl

lemma regStep3 (szMesh : Nat) :
    renderer_register_mesh szMesh sampleImport (stateN szMesh 3)
      [sampleVertex, sampleVertex, sampleVertex] [0] default_material =
      .ok (stateN szMesh 4, 3) := rfl

lemma regStep4 (szMesh : Nat) :
    renderer_register_mesh szMesh sampleImport (stateN szMesh 4)
      [sampleVertex, sampleVertex, sampleVertex] [0] default_material =
      .ok (stateN szMesh 5, 4) := rfl

lemma regStep5 (szMesh : Nat) :
    renderer_register_mesh szMesh sampleImport (stateN szMesh 5)
      [sampleVertex, sampleVertex, sampleVertex] [0] default_material =
      .ok (stateN szMesh 6, 5) := rfl

lemma regStep6 (szMesh : Nat) :
    renderer_register_mesh szMesh sampleImport (stateN szMesh 6)
      [sampleVertex, sampleVertex, sampleVertex] [0] default_material =
      .ok (stateN szMesh 7, 6) := rfl

lemma regStep7 (szMesh : Nat) :
    renderer_register_mesh szMesh sampleImport (stateN szMesh 7)
      [sampleVertex, sampleVertex, sampleVertex] [0] default_material =
      .ok (stateN szMesh 8, 7) := rfl

lemma regStep8 (szMesh : Nat) :
    renderer_register_mesh szMesh sampleImport (stateN szMesh 8)
      [sampleVertex, sampleVertex, sampleVertex] [0] default_material =
      .ok (stateN szMesh 9, 8) := rfl

lemma regStep9 (szMesh : Nat) :
    renderer_register_mesh szMesh sampleImport (stateN szMesh 9)
      [sampleVertex, sampleVertex, sampleVertex] [0] default_material =
      .ok (stateN szMesh 10, 9) := rfl

/-- The 11th sample registration: the registry is full, so `new_mesh`
takes the growth branch and reallocs the registry block to 15 bytes. -/
lemma regStep10 (szMesh : Nat) :
    renderer_register_mesh szMesh sampleImport (stateN szMesh 10)
      [sampleVertex, sampleVertex, sampleVertex] [0] default_material =
      .ok (state11, 10) := by
  simp only [renderer_register_mesh, new_mesh, stateN, initS, renderer_init, state11]
  simp [writeSlot, regMesh, sampleImport]
  rfl

lemma run10 (szMesh : Nat) :
    registerMany szMesh sampleImport initS (List.replicate 10 sampleRegInput) =
      .ok (stateN szMesh 10, [0, 1, 2, 3, 4, 5, 6, 7, 8, 9]) :=
  registerMany_cons_ok (regStep0 szMesh) (registerMany_cons_ok (regStep1 szMesh)
    (registerMany_cons_ok (regStep2 szMesh) (registerMany_cons_ok (regStep3 szMesh)
    (registerMany_cons_ok (regStep4 szMesh) (registerMany_cons_ok (regStep5 szMesh)
    (registerMany_cons_ok (regStep6 szMesh) (registerMany_cons_ok (regStep7 szMesh)
    (registerMany_cons_ok (regStep8 szMesh) (registerMany_cons_ok (regStep9 szMesh)
    registerMany_nil)))))))))

lemma run11 (szMesh : Nat) :
    registerMany szMesh sampleImport initS (List.replicate 11 sampleRegInput) =
      .ok (state11, [0, 1, 2, 3, 4, 5, 6, 7, 8, 9, 10]) :=
  registerMany_cons_ok (regStep0 szMesh) (registerMany_cons_ok (regStep1 szMesh)
    (registerMany_cons_ok (regStep2 szMesh) (registerMany_cons_ok (regStep3 szMesh)
    (registerMany_cons_ok (regStep4 szMesh) (registerMany_cons_ok (regStep5 szMesh)
    (registerMany_cons_ok (regStep6 szMesh) (registerMany_cons_ok (regStep7 szMesh)
    (registerMany_cons_ok (regStep8 szMesh) (registerMany_cons_ok (regStep9 szMesh)
    (registerMany_cons_ok (regStep10 szMesh) registerMany_nil))))))))))

/-- Unfolding lemma for one enqueue step. -/
lemma requestMany_cons {szMesh : Nat} {s : renderer} {i : Nat} {m : Mtx}
    {rest : List (Nat × Mtx)} :
    requestMany szMesh s ((i, m) :: rest) =
      requestMany szMesh (renderer_request szMesh s i m) rest := rfl

/-- Single enqueue steps between literal states. -/
lemma reqStep0 (szMesh : Nat) :
    renderer_request szMesh (stateN szMesh 1) 999 sampleModel =
      stateReqN szMesh 1 := rfl

lemma reqStep1 (szMesh : Nat) :
    renderer_request szMesh (stateReqN szMesh 1) 999 sampleModel =
      stateReqN szMesh 2 := rfl

lemma reqStep2 (szMesh : Nat) :
    renderer_request szMesh (stateReqN szMesh 2) 999 sampleModel =
      stateReqN szMesh 3 := rfl

lemma reqStep3 (szMesh : Nat) :
    renderer_request szMesh (stateReqN szMesh 3) 999 sampleModel =
      stateReqN szMesh 4 := rfl

lemma reqStep4 (szMesh : Nat) :
    renderer_request szMesh (stateReqN szMesh 4) 999 sampleModel =
      stateReqN szMesh 5 := rfl

lemma reqStep5 (szMesh : Nat) :
    renderer_request szMesh (stateReqN szMesh 5) 999 sampleModel =
      stateReqN szMesh 6 := rfl

lemma reqStep6 (szMesh : Nat) :
    renderer_request szMesh (stateReqN szMesh 6) 999 sampleModel =
      stateReqN szMesh 7 := rfl

lemma reqStep7 (szMesh : Nat) :
    renderer_request szMesh (stateReqN szMesh 7) 999 sampleModel =
      stateReqN szMesh 8 := rfl

lemma reqStep8 (szMesh : Nat) :
    renderer_request szMesh (stateReqN szMesh 8) 999 sampleModel =
      stateReqN szMesh 9 := rfl

lemma reqStep9 (szMesh : Nat) :
    renderer_request szMesh (stateReqN szMesh 9) 999 sampleModel =
      stateReqN szMesh 10 := rfl

/-- The 11th enqueue: the queue is full, so the growth branch runs
`this->meshes = realloc(this->requests, newcap)`, clobbering the registry
pointer and shrinking the queue block to 15 bytes. -/
lemma reqStep10 (szMesh : Nat) :
    renderer_request szMesh (stateReqN szMesh 10) 999 sampleModel =
      stateReq11 szMesh := by
  simp only [renderer_request, stateReqN, stateN, initS, renderer_init, stateReq11]
  simp [writeSlot]

lemma runReq10 (szMesh : Nat) :
    requestMany szMesh (stateN szMesh 1) (List.replicate 10 (999, sampleModel)) =
      stateReqN szMesh 10 := by
  rw [show List.replicate 10 ((999 : Nat), sampleModel) =
        (999, sampleModel) :: (999, sampleModel) :: (999, sampleModel) ::
        (999, sampleModel) :: (999, sampleModel) :: (999, sampleModel) ::
        (999, sampleModel) :: (999, sampleModel) :: (999, sampleModel) ::
        (999, sampleModel) :: [] from rfl]
  rw [requestMany_cons, reqStep0, requestMany_cons, reqStep1,
      requestMany_cons, reqStep2, requestMany_cons, reqStep3,
      requestMany_cons, reqStep4, requestMany_cons, reqStep5,
      requestMany_cons, reqStep6, requestMany_cons, reqStep7,
      requestMany_cons, reqStep8, requestMany_cons, reqStep9]
  rfl

lemma runReq11 (szMesh : Nat) :
    requestMany szMesh (stateN szMesh 1) (List.replicate 11 (999, sampleModel)) =
      stateReq11 szMesh := by
  rw [show List.replicate 11 ((999 : Nat), sampleModel) =
        (999, sampleModel) :: (999, sampleModel) :: (999, sampleModel) ::
        (999, sampleModel) :: (999, sampleModel) :: (999, sampleModel) ::
        (999, sampleModel) :: (999, sampleModel) :: (999, sampleModel) ::
        (999, sampleModel) :: (999, sampleModel) :: [] from rfl]
  rw [requestMany_cons, reqStep0, requestMany_cons, reqStep1,
      requestMany_cons, reqStep2, requestMany_cons, reqStep3,
      requestMany_cons, reqStep4, requestMany_cons, reqStep5,
      requestMany_cons, reqStep6, requestMany_cons, reqStep7,
      requestMany_cons, reqStep8, requestMany_cons, reqStep9,
      requestMany_cons, reqStep10]
  rfl

/-- Reading back the slot just written yields the written value. -/
lemma writeSlot_getD {α : Type} [Inhabited α] (l : List α) (i : Nat) (a : α) :
    (writeSlot l i a).getD i default = a := by
  unfold writeSlot
  split
  · rename_i h
    rw [List.getD_eq_getElem?_getD, List.getElem?_set]
    simp [h]
  · rename_i h
    have hle : l.length ≤ i := Nat.le_of_not_lt h
    have hlen : (l ++ List.replicate (i - l.length) default).length = i := by
      simp
      omega
    rw [List.getD_eq_getElem?_getD,
        List.getElem?_append_right (by rw [hlen]), hlen]
    simp

/-- Reading back the slot just written, stated on the `getElem?` normal
form simp produces. -/
lemma writeSlot_getElem?D {α : Type} [Inhabited α] (l : List α) (i : Nat) (a : α) :
    ((writeSlot l i a)[i]?).getD default = a := by
  rw [← List.getD_eq_getElem?_getD]
  exact writeSlot_getD l i a

/-- The handle returned by `new_mesh` is the pre-call count; the count is
incremented; the stored slot values are untouched. -/
lemma new_mesh_spec (szMesh : Nat) (s : renderer) :
    (new_mesh szMesh s).2 = s.n_meshes ∧
    (new_mesh szMesh s).1.n_meshes = s.n_meshes + 1 ∧
    (new_mesh szMesh s).1.meshes = s.meshes := by
  unfold new_mesh
  split_ifs <;> simp

/-- Extracting the k-th block from the flattening of equal-length blocks. -/
lemma flatten_blocks_extract {α β : Type} (f : α → List β) (L : Nat)
    (hL : ∀ a, (f a).length = L) (l : List α) :
    ∀ (k : Nat) (hk : k < l.length),
      ((l.map f).flatten.drop (L * k)).take L = f (l.get ⟨k, hk⟩) := by
  induction l with
  | nil => intro k hk; simp at hk
  | cons a l ih =>
    intro k hk
    cases k with
    | zero =>
      rw [List.map_cons, List.flatten_cons, Nat.mul_zero, List.drop_zero,
          ← hL a, List.take_left]
      rfl
    | succ k =>
      have hk' : k < l.length := by simpa using hk
      rw [List.map_cons, List.flatten_cons,
          show L * (k + 1) = (f a).length + L * k by rw [hL a]; ring,
          List.drop_append, ih k hk']
      rfl

/-- C1: for every queued request processed by `renderer_render`, the
backend receives, in this exact order: the renderer's fixed projection
matrix bound to the projection uniform; the request's own model matrix
bound directly to the model-view uniform (no separate view transform);
the mesh's material bound to the material uniform; the fixed lighting
uniforms lightVec = (0,0,-1,0), lightHalfVec = (0,0,-1,0),
lightClr = (1,1,1,1); the mesh's texture bound to texture unit 0; and one
non-indexed triangle-list draw over vertices [0, vertex_count). The k-th
request's block occupies positions 8k..8k+7 of the frame's trace. -/
theorem render_emits_exact_backend_sequence_per_request (s : renderer) (k : Nat)
    (hk : k < (s.requests.take s.n_requests).length) :
    ((renderer_render s).2.drop (8 * k)).take 8 =
      [BackendEvent.uniformMtx s.uLoc_projection s.projection,
       BackendEvent.uniformMtx s.uLoc_modelView
         ((s.requests.take s.n_requests).get ⟨k, hk⟩).model,
       BackendEvent.uniformMtx s.uLoc_material
         (materialAsMtx (s.meshes.getD
           ((s.requests.take s.n_requests).get ⟨k, hk⟩).mesh_id default).material),
       BackendEvent.uniformVec s.uLoc_lightVec ⟨0, 0, -1, 0⟩,
       BackendEvent.uniformVec s.uLoc_lightHalfVec ⟨0, 0, -1, 0⟩,
       BackendEvent.uniformVec s.uLoc_lightClr ⟨1, 1, 1, 1⟩,
       BackendEvent.texBind 0 (s.meshes.getD
         ((s.requests.take s.n_requests).get ⟨k, hk⟩).mesh_id default).texture,
       BackendEvent.drawArrays s.ctx_buf_info PrimMode.triangles 0
         (s.meshes.getD
           ((s.requests.take s.n_requests).get ⟨k, hk⟩).mesh_id default).vertex_count] := by
  have h := flatten_blocks_extract (drawEvents s) 8 (fun r => rfl)
      (s.requests.take s.n_requests) k hk
  simpa [renderer_render, drawEvents] using h

/-- C1 witness: a renderer with one registered 3-vertex mesh (handle 0,
texture handle 100, default material) and one request with the identity
model matrix produces exactly the claimed 8-event block. -/
theorem render_emits_exact_backend_sequence_per_request_witness :
    0 < (stateW.requests.take stateW.n_requests).length ∧
    ((renderer_render stateW).2.drop (8 * 0)).take 8 =
      [BackendEvent.uniformMtx 0 sampleProjection,
       BackendEvent.uniformMtx 1 sampleModel,
       BackendEvent.uniformMtx 5 (materialAsMtx default_material),
       BackendEvent.uniformVec 2 ⟨0, 0, -1, 0⟩,
       BackendEvent.uniformVec 3 ⟨0, 0, -1, 0⟩,
       BackendEvent.uniformVec 4 ⟨1, 1, 1, 1⟩,
       BackendEvent.texBind 0 (some 100),
       BackendEvent.drawArrays (some 1) PrimMode.triangles 0 3] :=
  ⟨by decide,
   render_emits_exact_backend_sequence_per_request stateW 0 (by decide)⟩

/-- C4: `renderer_render` consumes the queue in FIFO (insertion) order —
the subsequence of texture-bind and draw events equals, request by
request and in queue order, the bind/draw pair of each request's mesh. -/
theorem render_consumes_queue_in_fifo_order (s : renderer) :
    (renderer_render s).2.filter isDrawOrTex =
      (s.requests.take s.n_requests).flatMap (fun r =>
        [BackendEvent.texBind 0 (s.meshes.getD r.mesh_id default).texture,
         BackendEvent.drawArrays s.ctx_buf_info PrimMode.triangles 0
           (s.meshes.getD r.mesh_id default).vertex_count]) := by
  unfold renderer_render
  generalize (s.requests.take s.n_requests) = q
  induction q with
  | nil => rfl
  | cons r q ih =>
    simp only [List.map_cons, List.flatten_cons, List.filter_append,
      List.flatMap_cons]
    rw [ih]
    rfl

/-- C6: after every call to `renderer_render` the queue length is 0,
while the queue's storage and capacity are retained. -/
theorem render_clears_queue (s : renderer) :
    (renderer_render s).1.n_requests = 0 ∧
    (renderer_render s).1.requests = s.requests ∧
    (renderer_render s).1.capacity_requests = s.capacity_requests ∧
    (renderer_render s).1.requests_ptr = s.requests_ptr ∧
    (renderer_render s).1.requests_bytes = s.requests_bytes :=
  ⟨rfl, rfl, rfl, rfl, rfl⟩

/-- C8: `renderer_render` on an empty queue performs no backend call at
all (empty trace) and leaves the whole renderer state — registry
included — unchanged. -/
theorem render_empty_queue_noop (s : renderer) (h : s.n_requests = 0) :
    renderer_render s = (s, []) := by
  rcases s with ⟨p, u1, u2, u3, u4, u5, u6, rp, rq, nr, cr, rb, mp, ms, nm, cm, mb, cb, na⟩
  simp only at h
  subst h
  rfl

/-- C8 witness: rendering a freshly initialized renderer is a no-op. -/
theorem render_empty_queue_noop_witness :
    renderer_render initS = (initS, []) :=
  render_empty_queue_noop initS rfl

/-- C2: in a run of 11 registrations from a fresh renderer the k-th
registration (0-indexed) returns handle k — but the claim's second half
fails on the code: the 11th registration triggers growth, whose
`realloc(this->meshes, newcap)` passes the element count 15 as the BYTE
size, so the registry block shrinks to 15 bytes (`szMesh ≥ 16`): slot 0,
in bounds while the registry held `10 * szMesh` bytes, no longer lies
inside the allocation, so handle 0 no longer resolves to its mesh. -/
theorem register_handles_sequential_but_growth_destroys_storage
    (szMesh : Nat) (h : 16 ≤ szMesh) :
    registerMany szMesh sampleImport initS (List.replicate 11 sampleRegInput) =
      .ok (state11, [0, 1, 2, 3, 4, 5, 6, 7, 8, 9, 10]) ∧
    meshSlotFits szMesh (stateN szMesh 10) 0 ∧
    ¬ meshSlotFits szMesh state11 0 := by
  refine ⟨run11 szMesh, ?_, ?_⟩
  · simp only [meshSlotFits, stateN, initS, renderer_init]
    omega
  · simp only [meshSlotFits, state11, initS, renderer_init]
    omega

/-- C2 witness at the 3DS size `sizeof(struct mesh) = 248`. -/
theorem register_handles_sequential_but_growth_destroys_storage_witness :
    registerMany 248 sampleImport initS (List.replicate 11 sampleRegInput) =
      .ok (state11, [0, 1, 2, 3, 4, 5, 6, 7, 8, 9, 10]) ∧
    meshSlotFits 248 (stateN 248 10) 0 ∧
    ¬ meshSlotFits 248 state11 0 :=
  register_handles_sequential_but_growth_destroys_storage 248 (by norm_num)

/-- C3: the registry starts at capacity 10 and the 11th registration
grows the capacity field by 1.5 to 15 — but the claim's
preservation half fails on the code: the growth realloc resizes the
backing block to 15 bytes (not `15 * szMesh`), which is smaller than even
one mesh (`szMesh ≥ 16`), so no previously registered mesh's storage
survives the growth event: before it all 10 slots were in bounds,
after it no slot is. -/
theorem registry_growth_realloc_uses_byte_count_as_element_count
    (szMesh : Nat) (h : 16 ≤ szMesh) :
    registerMany szMesh sampleImport initS (List.replicate 10 sampleRegInput) =
      .ok (stateN szMesh 10, [0, 1, 2, 3, 4, 5, 6, 7, 8, 9]) ∧
    (stateN szMesh 10).capacity_meshes = 10 ∧
    (stateN szMesh 10).meshes_bytes = 10 * szMesh ∧
    (∀ i, i < 10 → meshSlotFits szMesh (stateN szMesh 10) i) ∧
    registerMany szMesh sampleImport initS (List.replicate 11 sampleRegInput) =
      .ok (state11, [0, 1, 2, 3, 4, 5, 6, 7, 8, 9, 10]) ∧
    state11.capacity_meshes = 15 ∧
    state11.meshes_bytes = 15 ∧
    state11.meshes_bytes < 11 * szMesh ∧
    (∀ i, ¬ meshSlotFits szMesh state11 i) := by
  refine ⟨run10 szMesh, rfl, rfl, ?_, run11 szMesh, rfl, rfl, ?_, ?_⟩
  · intro i hi
    simp only [meshSlotFits, stateN, initS, renderer_init]
    exact mul_le_mul_right' (by omega) szMesh
  · simp only [state11, initS, renderer_init]
    omega
  · intro i
    simp only [meshSlotFits, state11, initS, renderer_init]
    have hle : szMesh ≤ (i + 1) * szMesh :=
      Nat.le_mul_of_pos_left szMesh (by omega)
    omega

/-- C3 witness at the 3DS size `sizeof(struct mesh) = 248`. -/
theorem registry_growth_realloc_uses_byte_count_as_element_count_witness :
    registerMany 248 sampleImport initS (List.replicate 10 sampleRegInput) =
      .ok (stateN 248 10, [0, 1, 2, 3, 4, 5, 6, 7, 8, 9]) ∧
    (stateN 248 10).capacity_meshes = 10 ∧
    (stateN 248 10).meshes_bytes = 10 * 248 ∧
    (∀ i, i < 10 → meshSlotFits 248 (stateN 248 10) i) ∧
    registerMany 248 sampleImport initS (List.replicate 11 sampleRegInput) =
      .ok (state11, [0, 1, 2, 3, 4, 5, 6, 7, 8, 9, 10]) ∧
    state11.capacity_meshes = 15 ∧
    state11.meshes_bytes = 15 ∧
    state11.meshes_bytes < 11 * 248 ∧
    (∀ i, ¬ meshSlotFits 248 state11 i) :=
  registry_growth_realloc_uses_byte_count_as_element_count 248 (by norm_num)

/-- C5: `renderer_request` appends the (handle, matrix) pair unvalidated
(handle 999 with a 1-mesh registry is accepted) and the queue capacity
starts at 10 — but the claim's growth half fails on the code: the 11th
enqueue executes `this->meshes = realloc(this->requests, newcap)`, so the
registry's backing pointer is overwritten with the queue block
(allocation 2 instead of 0) and the queue block is resized to 15 bytes,
destroying the storage of every previously enqueued request
(`szReq ≥ 16`). -/
theorem request_growth_clobbers_registry_pointer
    (szMesh szReq : Nat) (h : 16 ≤ szReq) :
    requestMany szMesh (stateN szMesh 1) (List.replicate 10 (999, sampleModel)) =
      stateReqN szMesh 10 ∧
    (stateReqN szMesh 10).meshes_ptr = (stateN szMesh 1).meshes_ptr ∧
    (stateReqN szMesh 10).meshes = (stateN szMesh 1).meshes ∧
    (stateReqN szMesh 10).capacity_requests = 10 ∧
    (stateReqN szMesh 10).requests = List.replicate 10 ⟨999, sampleModel⟩ ∧
    requestMany szMesh (stateN szMesh 1) (List.replicate 11 (999, sampleModel)) =
      stateReq11 szMesh ∧
    (stateReq11 szMesh).n_requests = 11 ∧
    (stateReq11 szMesh).capacity_requests = 15 ∧
    (stateN szMesh 1).meshes_ptr = some 0 ∧
    (stateReq11 szMesh).meshes_ptr = some 2 ∧
    (stateReq11 szMesh).requests_ptr = some 2 ∧
    (stateReq11 szMesh).requests_bytes = 15 ∧
    ¬ requestSlotFits szReq (stateReq11 szMesh) 0 := by
  refine ⟨runReq10 szMesh, rfl, rfl, rfl, rfl, runReq11 szMesh,
    rfl, rfl, rfl, rfl, rfl, rfl, ?_⟩
  simp only [requestSlotFits, stateReq11, stateN, initS, renderer_init]
  omega

/-- C5 witness at the 3DS sizes `sizeof(struct mesh) = 248`,
`sizeof(struct render_request) = 68`. -/
theorem request_growth_clobbers_registry_pointer_witness :
    requestMany 248 (stateN 248 1) (List.replicate 10 (999, sampleModel)) =
      stateReqN 248 10 ∧
    (stateReqN 248 10).meshes_ptr = (stateN 248 1).meshes_ptr ∧
    (stateReqN 248 10).meshes = (stateN 248 1).meshes ∧
    (stateReqN 248 10).capacity_requests = 10 ∧
    (stateReqN 248 10).requests = List.replicate 10 ⟨999, sampleModel⟩ ∧
    requestMany 248 (stateN 248 1) (List.replicate 11 (999, sampleModel)) =
      stateReq11 248 ∧
    (stateReq11 248).n_requests = 11 ∧
    (stateReq11 248).capacity_requests = 15 ∧
    (stateN 248 1).meshes_ptr = some 0 ∧
    (stateReq11 248).meshes_ptr = some 2 ∧
    (stateReq11 248).requests_ptr = some 2 ∧
    (stateReq11 248).requests_bytes = 15 ∧
    ¬ requestSlotFits 68 (stateReq11 248) 0 :=
  request_growth_clobbers_registry_pointer 248 68 (by norm_num)

/-- C7: registering with an empty vertex sequence or an empty texture
buffer terminates through the panic path (with the corresponding
`PANIC_IF_ZERO` message) before any mutation: the renderer state carried
by the abort is exactly the pre-call state. -/
theorem register_rejects_empty_inputs_without_mutation
    (szMesh : Nat) (importTex : List Nat → Option Nat) (s : renderer)
    (vertices : List vertex) (texture_data : List Nat) (m : material)
    (h : vertices = [] ∨ texture_data = []) :
    ∃ msg, renderer_register_mesh szMesh importTex s vertices texture_data m =
      .error (msg, s) := by
  rcases h with h | h
  · subst h
    exact ⟨"n_vertices was zero!", by simp [renderer_register_mesh]⟩
  · subst h
    cases vertices with
    | nil => exact ⟨"n_vertices was zero!", by simp [renderer_register_mesh]⟩
    | cons v vs =>
      exact ⟨"texture_size was zero!", by simp [renderer_register_mesh]⟩

/-- C7 witness: an empty vertex list panics leaving `initS` unchanged. -/
theorem register_rejects_empty_inputs_without_mutation_witness :
    ∃ msg, renderer_register_mesh 248 sampleImport initS [] [0]
      default_material = .error (msg, initS) :=
  register_rejects_empty_inputs_without_mutation 248 sampleImport initS
    [] [0] default_material (Or.inl rfl)

/-- C9: `renderer_render` never issues a vertex-buffer bind (the
`C3D_SetBufInfo` call is commented out) and does not change the global
buffer descriptor, which `renderer_request` also leaves untouched; every
draw sources from the globally bound buffer, and each successful
`renderer_register_mesh` points that descriptor at the newly registered
mesh's vertex buffer — so all draws of a frame use the buffer of the most
recent registration, regardless of the requests' mesh handles. -/
theorem render_never_binds_vertex_buffer (s : renderer) :
    (∀ vbo, BackendEvent.setBufInfo vbo ∉ (renderer_render s).2) ∧
    (∀ buf mode first count,
       BackendEvent.drawArrays buf mode first count ∈ (renderer_render s).2 →
         buf = s.ctx_buf_info) ∧
    (renderer_render s).1.ctx_buf_info = s.ctx_buf_info ∧
    (∀ szMesh mesh_id mdl,
       (renderer_request szMesh s mesh_id mdl).ctx_buf_info = s.ctx_buf_info) ∧
    (∀ szMesh importTex v t m s' hdl,
       renderer_register_mesh szMesh importTex s v t m = .ok (s', hdl) →
         s'.ctx_buf_info = some ((s'.meshes.getD hdl default).vbo_id)) := by
  refine ⟨?_, ?_, rfl, ?_, ?_⟩
  · intro vbo hmem
    simp only [renderer_render] at hmem
    obtain ⟨l, hl, hmem2⟩ := List.mem_flatten.mp hmem
    obtain ⟨r, _, rfl⟩ := List.mem_map.mp hl
    simp [drawEvents] at hmem2
  · intro buf mode first count hmem
    simp only [renderer_render] at hmem
    obtain ⟨l, hl, hmem2⟩ := List.mem_flatten.mp hmem
    obtain ⟨r, _, rfl⟩ := List.mem_map.mp hl
    simp [drawEvents] at hmem2
    exact hmem2.1
  · intro szM mid mdl
    simp only [renderer_request]
    split_ifs <;> rfl
  · intro szM imp v t m s' hdl hok
    by_cases h1 : v.length = 0
    · simp [renderer_register_mesh, h1] at hok
    by_cases h2 : t.length = 0
    · simp [renderer_register_mesh, h1, h2] at hok
    · cases himp : imp t with
      | none => simp [renderer_register_mesh, h1, h2, himp] at hok
      | some tex =>
        simp [renderer_register_mesh, h1, h2, himp] at hok
        obtain ⟨hs, hh⟩ := hok
        subst hs
        subst hh
        simp [writeSlot_getD, writeSlot_getElem?D]

/-- C9 witness: in `stateW` (one mesh registered, its vertex buffer is
allocation 1), rendering the queued request emits no buffer bind, its one
draw sources from buffer 1, enqueueing leaves the descriptor alone, and
registering a further mesh repoints the descriptor at the new mesh's
buffer (allocation 3). -/
theorem render_never_binds_vertex_buffer_witness :
    BackendEvent.setBufInfo 1 ∉ (renderer_render stateW).2 ∧
    some 1 = stateW.ctx_buf_info ∧
    (renderer_render stateW).1.ctx_buf_info = stateW.ctx_buf_info ∧
    (renderer_request 248 stateW 0 sampleModel).ctx_buf_info =
      stateW.ctx_buf_info ∧
    stateW2.ctx_buf_info = some ((stateW2.meshes.getD 1 default).vbo_id) :=
  ⟨(render_never_binds_vertex_buffer stateW).1 1,
   (render_never_binds_vertex_buffer stateW).2.1
     (some 1) PrimMode.triangles 0 3 (by decide),
   (render_never_binds_vertex_buffer stateW).2.2.1,
   (render_never_binds_vertex_buffer stateW).2.2.2.1 248 0 sampleModel,
   (render_never_binds_vertex_buffer stateW).2.2.2.2 248 sampleImport
     [sampleVertex] [0] default_material stateW2 1 (by rfl)⟩

/-- C10: when the texture import fails inside `renderer_register_mesh`,
the registry has already been mutated before the panic: the mesh count
was incremented and the new slot's material, vertex buffer and vertex
count were written (its texture was not), so registration is not atomic
with respect to decode failures. -/
theorem register_import_failure_mutates_registry_first
    (szMesh : Nat) (importTex : List Nat → Option Nat) (s : renderer)
    (vertices : List vertex) (texture_data : List Nat) (m : material)
    (hv : vertices ≠ []) (ht : texture_data ≠ [])
    (himp : importTex texture_data = none) :
    ∃ s', renderer_register_mesh szMesh importTex s vertices texture_data m =
        .error ("importing t3x texture failed!", s') ∧
      s'.n_meshes = s.n_meshes + 1 ∧
      (s'.meshes.getD s.n_meshes default).material = m ∧
      (s'.meshes.getD s.n_meshes default).vbo_data = vertices ∧
      (s'.meshes.getD s.n_meshes default).vertex_count = vertices.length ∧
      (s'.meshes.getD s.n_meshes default).texture = none := by
  have hv' : ¬ vertices.length = 0 := fun hc => hv (List.length_eq_zero.mp hc)
  have ht' : ¬ texture_data.length = 0 := fun hc => ht (List.length_eq_zero.mp hc)
  obtain ⟨hret, hn, hm⟩ := new_mesh_spec szMesh s
  refine ⟨{ (new_mesh szMesh s).1 with
            next_alloc_id := (new_mesh szMesh s).1.next_alloc_id + 1
            meshes := writeSlot (new_mesh szMesh s).1.meshes (new_mesh szMesh s).2
              { material := m
                vbo_data := vertices
                vbo_id := (new_mesh szMesh s).1.next_alloc_id
                texture := none
                vertex_count := vertices.length } },
    ?_, ?_, ?_, ?_, ?_, ?_⟩
  · unfold renderer_register_mesh
    rw [if_neg hv', if_neg ht', himp]
  · exact hn
  · simp [hm, hret, writeSlot_getD, writeSlot_getElem?D]
  · simp [hm, hret, writeSlot_getD, writeSlot_getElem?D]
  · simp [hm, hret, writeSlot_getD, writeSlot_getElem?D]
  · simp [hm, hret, writeSlot_getD, writeSlot_getElem?D]

/-- C10 witness: a failing importer on valid inputs leaves a partially
registered mesh visible in the abort state. -/
theorem register_import_failure_mutates_registry_first_witness :
    ∃ s', renderer_register_mesh 248 failImport initS
        [sampleVertex] [0] default_material =
        .error ("importing t3x texture failed!", s') ∧
      s'.n_meshes = initS.n_meshes + 1 ∧
      (s'.meshes.getD initS.n_meshes default).material = default_material ∧
      (s'.meshes.getD initS.n_meshes default).vbo_data = [sampleVertex] ∧
      (s'.meshes.getD initS.n_meshes default).vertex_count =
        [sampleVertex].length ∧
      (s'.meshes.getD initS.n_meshes default).texture = none :=
  register_import_failure_mutates_registry_first 248 failImport initS
    [sampleVertex] [0] default_material (by simp) (by simp) rfl

end MM3DS
